import Mathlib

/-!
# terraform-provider-jupyterhub

A shallow embedding of `internal/provider/provider.go` (the provider's
`Configure`) and `internal/provider/user_data_source.go` (the data source's
`Read`), followed by the properties established about them.

Conventions of the embedding.

* A Go `string` is a sequence of bytes (`GoString`); `str` turns a source
  literal into its bytes.
* The plugin framework's value types (`types.String`, `types.Bool`), its
  diagnostics container and the process environment are modelled by small
  data types carrying exactly the operations the two functions call.
* The collaborators `api.CreateClient` and `(*api.ClientConfig).GetUser` are
  function parameters returning either an error message or a value.
* The result of a run records, next to the response, the arguments of the
  calls made to those collaborators and the function's local variables at
  return, so that statements about "what was looked up" or "what was resolved"
  talk about the run itself.
* Calls to `tflog` do not touch the response and are left out; the slice
  expression evaluated for the log line in `Read` is the same one evaluated for
  the lookup and is modelled once.
-/

namespace JupyterHub

/-! ## Go strings -/

/-- A Go string: an immutable sequence of bytes. -/
abbrev GoString := List UInt8

/-- Bytes of a string literal of the source (Go source text is UTF-8). -/
def str (s : String) : GoString := s.toUTF8.data.toList

/-- The slice expression `s[lo:hi]` on a string: the bytes from index `lo` up to
index `hi`, and a run-time panic (`none`) unless `0 ≤ lo ≤ hi ≤ len(s)`. -/
def goSlice (s : GoString) (lo hi : Int) : Option GoString :=
  if 0 ≤ lo ∧ lo ≤ hi ∧ hi ≤ (s.length : Int) then
    some ((s.drop lo.toNat).take (hi - lo).toNat)
  else
    none

/-! ## Framework values -/

/-- The framework's `types.String`: null, unknown, or a known string. -/
inductive StringValue where
  | null
  | unknown
  | known (value : GoString)
deriving DecidableEq

/-- Method `IsNull` of `types.String`. -/
def StringValue.IsNull : StringValue → Bool
  | .null => true
  | _ => false

/-- Method `IsUnknown` of `types.String`. -/
def StringValue.IsUnknown : StringValue → Bool
  | .unknown => true
  | _ => false

/-- Method `ValueString` of `types.String`: the known value, and the empty string
for null and unknown. -/
def StringValue.ValueString : StringValue → GoString
  | .known v => v
  | _ => []

/-- Modelled from the spec: the framework method `types.String.String()`, which is
not part of the repository's sources. It renders the unknown marker, the null
marker, or the known value wrapped in one quote character (byte 34) on each
side; `escape` stands for the escaping that the quoting applies to the bytes
between the two quote characters. -/
def StringValue.String (escape : GoString → GoString) : StringValue → GoString
  | .unknown => str "<unknown>"
  | .null => str "<null>"
  | .known v => 34 :: (escape v ++ [34])

/-- The framework's `types.Bool`. -/
inductive BoolValue where
  | null
  | unknown
  | known (value : Bool)
deriving DecidableEq

/-! ## Diagnostics -/

/-- Severity of a diagnostic. -/
inductive diag.Severity where
  | error
  | warning
deriving DecidableEq

/-- One diagnostic: severity, summary, detail and, for an attribute diagnostic,
the attribute path it is scoped to. -/
structure diag.Diagnostic where
  severity : diag.Severity
  summary : GoString
  detail : GoString
  attrPath : Option GoString
deriving DecidableEq

/-- The framework's `diag.Diagnostics`: an ordered collection. -/
abbrev diag.Diagnostics := List diag.Diagnostic

/-- Appending one diagnostic: a diagnostic equal to one already present is
skipped. -/
def diag.append1 (diags : diag.Diagnostics) (d : diag.Diagnostic) : diag.Diagnostics :=
  if d ∈ diags then diags else diags ++ [d]

/-- Method `Append` of `diag.Diagnostics`: appends each new diagnostic in turn. -/
def diag.Append (diags : diag.Diagnostics) (new : List diag.Diagnostic) : diag.Diagnostics :=
  new.foldl diag.append1 diags

/-- Method `HasError` of `diag.Diagnostics`. -/
def diag.HasError (diags : diag.Diagnostics) : Bool :=
  diags.any (fun d => d.severity = diag.Severity.error)

/-- The path `path.Root(name)` of a top-level attribute. -/
def path.Root (name : GoString) : GoString := name

/-- Method `AddAttributeError` of `diag.Diagnostics`. -/
def diag.AddAttributeError (diags : diag.Diagnostics) (p summary detail : GoString) :
    diag.Diagnostics :=
  diag.Append diags [{ severity := .error, summary := summary, detail := detail, attrPath := some p }]

/-- Method `AddError` of `diag.Diagnostics`. -/
def diag.AddError (diags : diag.Diagnostics) (summary detail : GoString) : diag.Diagnostics :=
  diag.Append diags [{ severity := .error, summary := summary, detail := detail, attrPath := none }]

/-! ## Process environment -/

/-- The process environment: the value of each variable that is set. -/
abbrev os.Environ := GoString → Option GoString

/-- The call `os.Getenv(key)`: the value of the variable, and the empty string
when it is not set. -/
def os.Getenv (env : os.Environ) (key : GoString) : GoString :=
  (env key).getD []

/-! ## provider.go -/

/-- The provider data model (`JupyterHubProviderModel`). -/
structure JupyterHubProviderModel where
  Host : StringValue
  Protocol : StringValue
  Prefix : StringValue
  Token : StringValue
  Username : StringValue
  Password : StringValue
deriving DecidableEq

/-- The fields of `api.ClientConfig` that `Configure` fills in. -/
structure api.ClientConfig where
  Protocol : GoString
  Host : GoString
  Prefix : GoString
  Token : GoString
  Username : GoString
  Password : GoString
deriving DecidableEq

/-- The parts of `provider.ConfigureResponse` that `Configure` writes. -/
structure ConfigureResponse (Handle : Type) where
  Diagnostics : diag.Diagnostics
  DataSourceData : Option Handle
  ResourceData : Option Handle

/-- A finished run of `Configure`: the response, the local variables
`protocol`, `host`, `prefix`, `token`, `username`, `password` at return (absent
when the function returned before assigning them) and the arguments of the
calls made to `api.CreateClient`. -/
structure ConfigureRun (Handle : Type) where
  resp : ConfigureResponse Handle
  locals : Option api.ClientConfig
  created : List api.ClientConfig

/-- Lines 93-100: the diagnostic for an unknown protocol. -/
def unknownProtocolDetail : GoString :=
  str "The provider cannot create the JupyterHub API client as there is an unknown configuration value for the JupyterHub API protocol. "
    ++ str "Either target apply the source of the value first, set the value statically in the configuration, or use the JUPYTERHUB_PROTOCOL environment variable."

/-- Lines 102-109: the diagnostic for an unknown host. -/
def unknownHostDetail : GoString :=
  str "The provider cannot create the JupyterHub API client as there is an unknown configuration value for the JupyterHub API host. "
    ++ str "Either target apply the source of the value first, set the value statically in the configuration, or use the JUPYTERHUB_HOST environment variable."

/-- Lines 111-118: the diagnostic for an unknown prefix. -/
def unknownPrefixDetail : GoString :=
  str "The provider cannot create the JupyterHub API client as there is an unknown configuration value for the JupyterHub API prefix. "
    ++ str "Either target apply the source of the value first, set the value statically in the configuration, or use the JUPYTERHUB_PREFIX environment variable."

/-- Lines 120-127: the diagnostic for an unknown token. -/
def unknownTokenDetail : GoString :=
  str "The provider cannot create the JupyterHub API client as there is an unknown configuration value for the JupyterHub API token. "
    ++ str "Either target apply the source of the value first, set the value statically in the configuration, or use the JUPYTERHUB_TOKEN environment variable."

/-- Lines 129-136: the diagnostic for an unknown username. -/
def unknownUsernameDetail : GoString :=
  str "The provider cannot create the JupyterHub API client as there is an unknown configuration value for the JupyterHub API username. "
    ++ str "Either target apply the source of the value first, set the value statically in the configuration, or use the JUPYTERHUB_USERNAME environment variable."

/-- Lines 138-145: the diagnostic for an unknown password. -/
def unknownPasswordDetail : GoString :=
  str "The provider cannot create the JupyterHub API client as there is an unknown configuration value for the JupyterHub API password. "
    ++ str "Either target apply the source of the value first, set the value statically in the configuration, or use the JUPYTERHUB_PASSWORD environment variable."

/-- Lines 190-194: the detail of the missing token-and-username diagnostic. -/
def missingUsernameDetail : GoString :=
  str "The provider cannot create the JupyterHub API client as there is a missing or empty value for both JupyterHub API username and token (one is needed). "
    ++ str "Set the username value in the configuration or use the JUPYTERHUB_USERNAME environment variable. "
    ++ str "Set the token value in the configuration or use the JUPYTERHUB_TOKEN environment variable. "
    ++ str "If either is already set, ensure the value is not empty."

/-- Lines 201-205: the detail of the missing token-and-password diagnostic. -/
def missingPasswordDetail : GoString :=
  str "The provider cannot create the JupyterHub API client as there is a missing or empty value for both JupyterHub API password and token (one is needed). "
    ++ str "Set the password value in the configuration or use the JUPYTERHUB_PASSWORD environment variable. "
    ++ str "Set the token value in the configuration or use the JUPYTERHUB_TOKEN environment variable. "
    ++ str "If either is already set, ensure the value is not empty."

/-- Lines 223-226: the detail of the client-creation diagnostic, for the error
message `err`. -/
def createClientDetail (err : GoString) : GoString :=
  str "An unexpected error occurred when creating the JuypterHub API client. "
    ++ str "If the error is not clear, please contact the provider developers.\n\n"
    ++ str "HashiCups Client Error: " ++ err

/-- Lines 84-207 of `Configure`: decoding of the configuration, the unknown-value
checks, the resolution of the six values and the two credential checks. The
result is `resp.Diagnostics` at line 208 together with the resolved values, or
`resp.Diagnostics` alone when the function returned at line 87. The argument
`getDiags` holds the diagnostics returned by `req.Config.Get` and `data` the
model it decoded. -/
def ConfigureValidate (env : os.Environ) (getDiags : diag.Diagnostics)
    (data : JupyterHubProviderModel) : diag.Diagnostics × Option api.ClientConfig :=
  let diags := diag.Append [] getDiags
  if diag.HasError diags then
    (diags, none)
  else
    let diags :=
      if data.Protocol.IsUnknown then
        diag.AddAttributeError diags (path.Root (str "protocol"))
          (str "Unknown JupyterHub API Protocol") unknownProtocolDetail
      else diags
    let diags :=
      if data.Host.IsUnknown then
        diag.AddAttributeError diags (path.Root (str "host"))
          (str "Unknown JupyterHub API Host") unknownHostDetail
      else diags
    let diags :=
      if data.Prefix.IsUnknown then
        diag.AddAttributeError diags (path.Root (str "prefix"))
          (str "Unknown JupyterHub API Prefix") unknownPrefixDetail
      else diags
    let diags :=
      if data.Token.IsUnknown then
        diag.AddAttributeError diags (path.Root (str "token"))
          (str "Unknown JupyterHub API Token") unknownTokenDetail
      else diags
    let diags :=
      if data.Username.IsUnknown then
        diag.AddAttributeError diags (path.Root (str "username"))
          (str "Unknown JupyterHub API Username") unknownUsernameDetail
      else diags
    let diags :=
      if data.Password.IsUnknown then
        diag.AddAttributeError diags (path.Root (str "password"))
          (str "Unknown JupyterHub API Password") unknownPasswordDetail
      else diags
    let protocol := os.Getenv env (str "HASHICUPS_PROTOCOL")
    let host := os.Getenv env (str "HASHICUPS_HOST")
    let pfx := os.Getenv env (str "HASHICUPS_PREFIX")
    let token := os.Getenv env (str "HASHICUPS_TOKEN")
    let username := os.Getenv env (str "HASHICUPS_USERNAME")
    let password := os.Getenv env (str "HASHICUPS_PASSWORD")
    let protocol :=
      if !data.Protocol.IsNull then data.Protocol.ValueString
      else if protocol = [] then str "http"
      else protocol
    let host :=
      if !data.Host.IsNull then data.Host.ValueString
      else if host = [] then str "localhost:8000"
      else host
    let pfx :=
      if !data.Prefix.IsNull then data.Prefix.ValueString
      else if pfx = [] then str "/"
      else pfx
    let token := if !data.Token.IsNull then data.Token.ValueString else token
    let username := if !data.Username.IsNull then data.Username.ValueString else username
    let password := if !data.Password.IsNull then data.Password.ValueString else password
    let diags :=
      if token = [] ∧ username = [] then
        diag.AddAttributeError diags (path.Root (str "username"))
          (str "Missing JupyterHub API Token and Username") missingUsernameDetail
      else diags
    let diags :=
      if token = [] ∧ password = [] then
        diag.AddAttributeError diags (path.Root (str "password"))
          (str "Missing JupyterHub API Token and Password") missingPasswordDetail
      else diags
    (diags, some { Protocol := protocol, Host := host, Prefix := pfx, Token := token,
                   Username := username, Password := password })

/-- The method `JupyterHubProvider.Configure`. `CreateClient` is the collaborator
`api.CreateClient`: the error's message when it fails, the client handle
otherwise. -/
def Configure {Handle : Type} (CreateClient : api.ClientConfig → Except GoString Handle)
    (env : os.Environ) (getDiags : diag.Diagnostics) (data : JupyterHubProviderModel) :
    ConfigureRun Handle :=
  match ConfigureValidate env getDiags data with
  | (diags, none) =>
    { resp := { Diagnostics := diags, DataSourceData := none, ResourceData := none },
      locals := none, created := [] }
  | (diags, some cfg) =>
    if diag.HasError diags then
      { resp := { Diagnostics := diags, DataSourceData := none, ResourceData := none },
        locals := some cfg, created := [] }
    else
      match CreateClient cfg with
      | .error err =>
        { resp := { Diagnostics := diag.AddError diags (str "Unable to Create Jupyterhub API Client")
                      (createClientDetail err),
                    DataSourceData := none, ResourceData := none },
          locals := some cfg, created := [cfg] }
      | .ok client =>
        { resp := { Diagnostics := diags, DataSourceData := some client,
                    ResourceData := some client },
          locals := some cfg, created := [cfg] }

/-! ## user_data_source.go -/

/-- The fields of the client's user record that `Read` uses. -/
structure api.User where
  Admin : Bool
  Roles : List GoString
  Groups : List GoString
deriving DecidableEq

/-- The data source model (`userDataSourceModel`). -/
structure userDataSourceModel where
  Name : StringValue
  Admin : BoolValue
  Roles : List StringValue
  Groups : List StringValue
deriving DecidableEq

/-- A finished run of `Read`: `resp.Diagnostics`, the model handed to
`resp.State.Set` (absent when that call was not reached) and the keys of the
calls made to `GetUser`. -/
structure ReadRun where
  Diagnostics : diag.Diagnostics
  State : Option userDataSourceModel
  queried : List GoString
deriving DecidableEq

/-- Lines 112-115 of `Read`: the loop over `user.Roles`. -/
def Read.rolesLoop (roles : List GoString) (state : userDataSourceModel) : userDataSourceModel :=
  roles.foldl (fun st role => { st with Roles := st.Roles ++ [StringValue.known role] })
    { state with Roles := [] }

/-- Lines 117-120 of `Read`: the loop over `user.Groups`; each step assigns to
`state.Roles` the result of appending the group to `state.Groups`. -/
def Read.groupsLoop (groups : List GoString) (state : userDataSourceModel) : userDataSourceModel :=
  groups.foldl (fun st group => { st with Roles := st.Groups ++ [StringValue.known group] })
    { state with Groups := [] }

/-- The method `userDataSource.Read`. `GetUser` is the method of the configured
client, `getDiags` and `config` are the diagnostics and the model that
`req.Config.Get` yields, `setDiags` the diagnostics that `resp.State.Set`
returns. The result is `none` when the run panics on the slice expression. -/
def Read (escape : GoString → GoString) (GetUser : GoString → Except GoString api.User)
    (getDiags : diag.Diagnostics) (config : userDataSourceModel)
    (setDiags : diag.Diagnostics) : Option ReadRun :=
  let state := config
  let diags := diag.Append [] getDiags
  if diag.HasError diags then
    some { Diagnostics := diags, State := none, queried := [] }
  else
    let username := state.Name.String escape
    match goSlice username 1 ((username.length : Int) - 1) with
    | none => none
    | some key =>
      match GetUser key with
      | .error err =>
        some { Diagnostics := diag.AddError diags (str "Unable to Read JupyterHub User") err,
               State := none, queried := [key] }
      | .ok user =>
        let state := { state with Admin := BoolValue.known user.Admin }
        let state := Read.rolesLoop user.Roles state
        let state := Read.groupsLoop user.Groups state
        some { Diagnostics := diag.Append diags setDiags, State := some state, queried := [key] }

/-! ## Vocabulary of the statements -/

/-- The six configuration attributes of the provider schema. -/
inductive Field where
  | protocol
  | host
  | pathPrefix
  | token
  | username
  | password
deriving DecidableEq

/-- The attribute name under which the schema (lines 52-78) declares the field. -/
def Field.attrName : Field → GoString
  | .protocol => str "protocol"
  | .host => str "host"
  | .pathPrefix => str "prefix"
  | .token => str "token"
  | .username => str "username"
  | .password => str "password"

/-- The environment variable that the schema descriptions (lines 53-75) and the
diagnostics' texts name for the field. -/
def Field.documentedVar : Field → GoString
  | .protocol => str "JUPYTERHUB_PROTOCOL"
  | .host => str "JUPYTERHUB_HOST"
  | .pathPrefix => str "JUPYTERHUB_PREFIX"
  | .token => str "JUPYTERHUB_TOKEN"
  | .username => str "JUPYTERHUB_USERNAME"
  | .password => str "JUPYTERHUB_PASSWORD"

/-- The environment variable that `Configure` reads for the field (lines
150-155). -/
def Field.consultedVar : Field → GoString
  | .protocol => str "HASHICUPS_PROTOCOL"
  | .host => str "HASHICUPS_HOST"
  | .pathPrefix => str "HASHICUPS_PREFIX"
  | .token => str "HASHICUPS_TOKEN"
  | .username => str "HASHICUPS_USERNAME"
  | .password => str "HASHICUPS_PASSWORD"

/-- The built-in default of the field (lines 160, 166, 172), when it has one. -/
def Field.builtin : Field → Option GoString
  | .protocol => some (str "http")
  | .host => some (str "localhost:8000")
  | .pathPrefix => some (str "/")
  | _ => none

/-- The explicit value of the field in the decoded configuration. -/
def Field.explicit (data : JupyterHubProviderModel) : Field → StringValue
  | .protocol => data.Protocol
  | .host => data.Host
  | .pathPrefix => data.Prefix
  | .token => data.Token
  | .username => data.Username
  | .password => data.Password

/-- The value of the field's local variable among the resolved values. -/
def Field.resolved (cfg : api.ClientConfig) : Field → GoString
  | .protocol => cfg.Protocol
  | .host => cfg.Host
  | .pathPrefix => cfg.Prefix
  | .token => cfg.Token
  | .username => cfg.Username
  | .password => cfg.Password

/-- The diagnostic that lines 93-145 add for the field when its value is unknown. -/
def Field.unknownError : Field → diag.Diagnostic
  | .protocol => ⟨.error, str "Unknown JupyterHub API Protocol", unknownProtocolDetail, some (str "protocol")⟩
  | .host => ⟨.error, str "Unknown JupyterHub API Host", unknownHostDetail, some (str "host")⟩
  | .pathPrefix => ⟨.error, str "Unknown JupyterHub API Prefix", unknownPrefixDetail, some (str "prefix")⟩
  | .token => ⟨.error, str "Unknown JupyterHub API Token", unknownTokenDetail, some (str "token")⟩
  | .username => ⟨.error, str "Unknown JupyterHub API Username", unknownUsernameDetail, some (str "username")⟩
  | .password => ⟨.error, str "Unknown JupyterHub API Password", unknownPasswordDetail, some (str "password")⟩

/-- The diagnostic of lines 187-196. -/
def missingUsernameError : diag.Diagnostic :=
  ⟨.error, str "Missing JupyterHub API Token and Username", missingUsernameDetail, some (str "username")⟩

/-- The diagnostic of lines 198-207. -/
def missingPasswordError : diag.Diagnostic :=
  ⟨.error, str "Missing JupyterHub API Token and Password", missingPasswordDetail, some (str "password")⟩

/-- A configuration that sets none of the six attributes. -/
def nullConfig : JupyterHubProviderModel :=
  { Host := .null, Protocol := .null, Prefix := .null, Token := .null, Username := .null,
    Password := .null }

/-- An environment in which no variable is set. -/
def emptyEnv : os.Environ := fun _ => none

/-- An environment that sets exactly the six documented variables. -/
def documentedEnv : os.Environ := fun key =>
  if key = str "JUPYTERHUB_PROTOCOL" then some (str "https")
  else if key = str "JUPYTERHUB_HOST" then some (str "hub.example.org")
  else if key = str "JUPYTERHUB_PREFIX" then some (str "/hub")
  else if key = str "JUPYTERHUB_TOKEN" then some (str "secret")
  else if key = str "JUPYTERHUB_USERNAME" then some (str "admin")
  else if key = str "JUPYTERHUB_PASSWORD" then some (str "hunter2")
  else none

/-- The resolved values that consist of the three built-in defaults and three
empty credentials. -/
def defaultsOnly : api.ClientConfig :=
  { Protocol := str "http", Host := str "localhost:8000", Prefix := str "/",
    Token := [], Username := [], Password := [] }

/-- A collaborator `api.CreateClient` that accepts every configuration and
returns the configuration itself as the handle. -/
def acceptingCreateClient : api.ClientConfig → Except GoString api.ClientConfig :=
  fun cfg => .ok cfg

/-- A configuration that sets host to `h` and protocol to `p` and nothing else. -/
def hostProtocolConfig : JupyterHubProviderModel :=
  { Host := .known (str "h"), Protocol := .known (str "p"), Prefix := .null, Token := .null,
    Username := .null, Password := .null }

/-- An environment that sets, for host and protocol, both the variable that
`Configure` reads and the documented one. -/
def overridingEnv : os.Environ := fun key =>
  if key = str "HASHICUPS_HOST" then some (str "env-host")
  else if key = str "HASHICUPS_PROTOCOL" then some (str "https")
  else if key = str "JUPYTERHUB_HOST" then some (str "env-host")
  else if key = str "JUPYTERHUB_PROTOCOL" then some (str "https")
  else none

/-- The escaping applied to a string that needs none (printable ASCII without
quote or backslash): the bytes are kept as they are. -/
def plainEscape : GoString → GoString := fun v => v

/-- A data source configuration whose name is the known string `alice`; the
computed attributes are null in the configuration. -/
def aliceConfig : userDataSourceModel :=
  { Name := .known (str "alice"), Admin := .null, Roles := [], Groups := [] }

/-- A data source configuration whose name is the known empty string. -/
def emptyNameConfig : userDataSourceModel :=
  { Name := .known [], Admin := .null, Roles := [], Groups := [] }

/-- The user record of the spec's example: admin, roles `a` and `b`, group `g1`. -/
def sampleUser : api.User :=
  { Admin := true, Roles := [str "a", str "b"], Groups := [str "g1"] }

/-- A client that knows the user `alice` and fails for every other key. -/
def sampleGetUser : GoString → Except GoString api.User := fun key =>
  if key = str "alice" then .ok sampleUser else .error (str "404 Not Found")

/-- A configuration whose token is unknown and that sets nothing else. -/
def unknownTokenConfig : JupyterHubProviderModel :=
  { Host := .null, Protocol := .null, Prefix := .null, Token := .unknown, Username := .null,
    Password := .null }

/-- A configuration that sets the token to `t` and nothing else. -/
def tokenConfig : JupyterHubProviderModel :=
  { Host := .null, Protocol := .null, Prefix := .null, Token := .known (str "t"),
    Username := .null, Password := .null }

/-- A collaborator `api.CreateClient` that rejects every configuration. -/
def rejectingCreateClient : api.ClientConfig → Except GoString api.ClientConfig :=
  fun _ => .error (str "malformed host")

/-- A data source configuration whose name is the known string `bob`. -/
def bobConfig : userDataSourceModel :=
  { Name := .known (str "bob"), Admin := .null, Roles := [], Groups := [] }

/-! ## Auxiliary facts -/

theorem HasError_append1 (diags : diag.Diagnostics) (d : diag.Diagnostic) :
    diag.HasError (diag.append1 diags d)
      = (diag.HasError diags || decide (d.severity = diag.Severity.error)) := by
  unfold diag.append1
  split
  · rename_i hmem
    by_cases hd : d.severity = diag.Severity.error
    · have : diag.HasError diags = true := by
        unfold diag.HasError
        rw [List.any_eq_true]
        exact ⟨d, hmem, by simpa using hd⟩
      simp [this]
    · simp [hd]
  · simp [diag.HasError, List.any_append]

theorem HasError_Append (new : List diag.Diagnostic) :
    ∀ diags : diag.Diagnostics,
      diag.HasError (diag.Append diags new) = (diag.HasError diags || diag.HasError new) := by
  induction new with
  | nil => intro diags; simp [diag.Append, diag.HasError]
  | cons d rest ih =>
    intro diags
    have h := ih (diag.append1 diags d)
    simp only [diag.Append, List.foldl_cons] at h ⊢
    rw [h, HasError_append1]
    simp [diag.HasError, Bool.or_assoc]

theorem HasError_Append_nil (getDiags : diag.Diagnostics) :
    diag.HasError (diag.Append [] getDiags) = diag.HasError getDiags := by
  rw [HasError_Append]; simp [diag.HasError]

theorem not_mem_of_no_error (diags : diag.Diagnostics) (d : diag.Diagnostic)
    (h : diag.HasError diags = false) (hd : d.severity = diag.Severity.error) : d ∉ diags := by
  intro hmem
  have : diag.HasError diags = true := by
    unfold diag.HasError
    rw [List.any_eq_true]
    exact ⟨d, hmem, by simpa using hd⟩
  rw [h] at this
  exact Bool.noConfusion this

theorem Append_singleton (diags : diag.Diagnostics) (d : diag.Diagnostic) :
    diag.Append diags [d] = diag.append1 diags d := rfl

theorem append1_of_not_mem (diags : diag.Diagnostics) (d : diag.Diagnostic) (h : d ∉ diags) :
    diag.append1 diags d = diags ++ [d] := by
  unfold diag.append1
  rw [if_neg h]

theorem mem_append1_self (diags : diag.Diagnostics) (d : diag.Diagnostic) :
    d ∈ diag.append1 diags d := by
  unfold diag.append1
  split
  · assumption
  · simp

theorem mem_append1_of_mem (diags : diag.Diagnostics) (d x : diag.Diagnostic) (h : x ∈ diags) :
    x ∈ diag.append1 diags d := by
  unfold diag.append1
  split
  · exact h
  · simp [h]

theorem Configure_locals {Handle : Type} (CreateClient : api.ClientConfig → Except GoString Handle)
    (env : os.Environ) (getDiags : diag.Diagnostics) (data : JupyterHubProviderModel) :
    (Configure CreateClient env getDiags data).locals = (ConfigureValidate env getDiags data).2 := by
  unfold Configure
  rcases hv : ConfigureValidate env getDiags data with ⟨diags, _ | cfg⟩
  · rfl
  · simp only
    split
    · rfl
    · cases CreateClient cfg <;> rfl

theorem ConfigureValidate_resolved (env : os.Environ) (getDiags : diag.Diagnostics)
    (data : JupyterHubProviderModel) (h : diag.HasError getDiags = false) :
    (ConfigureValidate env getDiags data).2 = some
      { Protocol :=
          if !data.Protocol.IsNull then data.Protocol.ValueString
          else if os.Getenv env (str "HASHICUPS_PROTOCOL") = [] then str "http"
          else os.Getenv env (str "HASHICUPS_PROTOCOL"),
        Host :=
          if !data.Host.IsNull then data.Host.ValueString
          else if os.Getenv env (str "HASHICUPS_HOST") = [] then str "localhost:8000"
          else os.Getenv env (str "HASHICUPS_HOST"),
        Prefix :=
          if !data.Prefix.IsNull then data.Prefix.ValueString
          else if os.Getenv env (str "HASHICUPS_PREFIX") = [] then str "/"
          else os.Getenv env (str "HASHICUPS_PREFIX"),
        Token :=
          if !data.Token.IsNull then data.Token.ValueString
          else os.Getenv env (str "HASHICUPS_TOKEN"),
        Username :=
          if !data.Username.IsNull then data.Username.ValueString
          else os.Getenv env (str "HASHICUPS_USERNAME"),
        Password :=
          if !data.Password.IsNull then data.Password.ValueString
          else os.Getenv env (str "HASHICUPS_PASSWORD") } := by
  unfold ConfigureValidate
  simp only [HasError_Append_nil, h]
  simp

theorem Configure_resolved {Handle : Type}
    (CreateClient : api.ClientConfig → Except GoString Handle)
    (env : os.Environ) (getDiags : diag.Diagnostics) (data : JupyterHubProviderModel)
    (h : diag.HasError getDiags = false) :
    ∃ cfg, (Configure CreateClient env getDiags data).locals = some cfg ∧
      (∀ (f : Field) (v : GoString), f.explicit data = StringValue.known v → f.resolved cfg = v) ∧
      (∀ f : Field, f.explicit data = StringValue.unknown → f.resolved cfg = []) ∧
      (∀ f : Field, f.explicit data = StringValue.null → os.Getenv env f.consultedVar ≠ [] →
        f.resolved cfg = os.Getenv env f.consultedVar) ∧
      (∀ f : Field, f.explicit data = StringValue.null → os.Getenv env f.consultedVar = [] →
        f.resolved cfg = f.builtin.getD []) := by
  refine ⟨_, (Configure_locals CreateClient env getDiags data).trans
    (ConfigureValidate_resolved env getDiags data h), ?_, ?_, ?_, ?_⟩
  · intro f v hf
    cases f <;> simp only [Field.explicit] at hf <;>
      simp [Field.resolved, hf, StringValue.IsNull, StringValue.ValueString]
  · intro f hf
    cases f <;> simp only [Field.explicit] at hf <;>
      simp [Field.resolved, hf, StringValue.IsNull, StringValue.ValueString]
  · intro f hf he
    cases f <;> simp only [Field.explicit, Field.consultedVar] at hf he <;>
      simp [Field.resolved, hf, he, StringValue.IsNull, Field.consultedVar]
  · intro f hf he
    cases f <;> simp only [Field.explicit, Field.consultedVar] at hf he <;>
      simp [Field.resolved, hf, he, StringValue.IsNull, Field.builtin]

theorem Configure_created_locals {Handle : Type}
    (CreateClient : api.ClientConfig → Except GoString Handle)
    (env : os.Environ) (getDiags : diag.Diagnostics) (data : JupyterHubProviderModel) :
    ∀ c ∈ (Configure CreateClient env getDiags data).created,
      (Configure CreateClient env getDiags data).locals = some c := by
  unfold Configure
  rcases hv : ConfigureValidate env getDiags data with ⟨diags, _ | cfg⟩
  · simp
  · simp only
    split
    · simp
    · cases CreateClient cfg <;> simp

theorem goSlice_strip_isSome (s : GoString) :
    (goSlice s 1 ((s.length : Int) - 1)).isSome = true ↔ 2 ≤ s.length := by
  unfold goSlice
  constructor
  · intro h
    split at h
    · omega
    · simp at h
  · intro h
    rw [if_pos (by omega)]
    rfl

theorem goSlice_strip_wrapped (q1 q2 : UInt8) (s : GoString) :
    goSlice (q1 :: (s ++ [q2])) 1 (((q1 :: (s ++ [q2])).length : Int) - 1) = some s := by
  unfold goSlice
  have hlen : (((q1 :: (s ++ [q2])).length : Int) - 1) = (s.length : Int) + 1 := by
    simp
  rw [hlen, if_pos (by simp)]
  have h1 : ((s.length : Int) + 1 - 1).toNat = s.length := by omega
  have h2 : (1 : Int).toNat = 1 := rfl
  rw [h1, h2]
  simp

theorem String_length_ge_two (escape : GoString → GoString) (name : StringValue) :
    2 ≤ (name.String escape).length := by
  cases name with
  | null => show 2 ≤ (str "<null>").length; decide
  | unknown => show 2 ≤ (str "<unknown>").length; decide
  | known v => simp [StringValue.String]

theorem rolesLoop_fold (roles : List GoString) :
    ∀ st : userDataSourceModel,
      roles.foldl (fun st role => { st with Roles := st.Roles ++ [StringValue.known role] }) st
        = { st with Roles := st.Roles ++ roles.map StringValue.known } := by
  induction roles with
  | nil => intro st; simp
  | cons r rest ih => intro st; rw [List.foldl_cons, ih]; simp

theorem rolesLoop_eq (roles : List GoString) (st : userDataSourceModel) :
    Read.rolesLoop roles st = { st with Roles := roles.map StringValue.known } := by
  unfold Read.rolesLoop
  rw [rolesLoop_fold]
  simp

theorem groupsLoop_fold (groups : List GoString) :
    ∀ st : userDataSourceModel,
      groups.foldl (fun st group => { st with Roles := st.Groups ++ [StringValue.known group] }) st
        = { st with Roles :=
              match groups.getLast? with
              | none => st.Roles
              | some g => st.Groups ++ [StringValue.known g] } := by
  induction groups with
  | nil => intro st; simp
  | cons g rest ih =>
    intro st
    rw [List.foldl_cons, ih]
    cases rest with
    | nil => simp
    | cons g2 rest2 =>
      rw [List.getLast?_cons_cons]
      cases hl : (g2 :: rest2).getLast? with
      | none => simp at hl
      | some x => simp

theorem groupsLoop_eq (groups : List GoString) (st : userDataSourceModel) :
    Read.groupsLoop groups st =
      { st with
        Groups := [],
        Roles :=
          match groups.getLast? with
          | none => st.Roles
          | some g => [StringValue.known g] } := by
  unfold Read.groupsLoop
  rw [groupsLoop_fold]
  simp

theorem Read_error (escape : GoString → GoString) (GetUser : GoString → Except GoString api.User)
    (getDiags : diag.Diagnostics) (config : userDataSourceModel) (setDiags : diag.Diagnostics)
    (key err : GoString)
    (h : diag.HasError getDiags = false)
    (hkey : goSlice (config.Name.String escape)
      1 (((config.Name.String escape).length : Int) - 1) = some key)
    (herr : GetUser key = Except.error err) :
    Read escape GetUser getDiags config setDiags = some
      { Diagnostics := diag.Append [] getDiags
          ++ [⟨diag.Severity.error, str "Unable to Read JupyterHub User", err, none⟩],
        State := none,
        queried := [key] } := by
  unfold Read
  simp only [HasError_Append_nil, h, hkey, herr]
  have hno : (⟨diag.Severity.error, str "Unable to Read JupyterHub User", err, none⟩ :
      diag.Diagnostic) ∉ diag.Append [] getDiags :=
    not_mem_of_no_error _ _ (by rw [HasError_Append_nil]; exact h) rfl
  rw [diag.AddError, Append_singleton, append1_of_not_mem _ _ hno]
  simp

theorem mem_ite_add (c : Prop) [Decidable c] (diags : diag.Diagnostics)
    (p summary detail : GoString) (x : diag.Diagnostic) (h : x ∈ diags) :
    x ∈ (if c then diag.AddAttributeError diags p summary detail else diags) := by
  split
  · exact mem_append1_of_mem _ _ _ h
  · exact h

theorem mem_ite_add_self (c : Prop) [Decidable c] (diags : diag.Diagnostics)
    (p summary detail : GoString) (x : diag.Diagnostic) (hc : c)
    (hx : x = ⟨diag.Severity.error, summary, detail, some p⟩) :
    x ∈ (if c then diag.AddAttributeError diags p summary detail else diags) := by
  rw [if_pos hc, hx]
  exact mem_append1_self _ _

theorem ConfigureValidate_mem_unknown (env : os.Environ) (getDiags : diag.Diagnostics)
    (data : JupyterHubProviderModel) (f : Field)
    (h : diag.HasError getDiags = false) (hf : f.explicit data = StringValue.unknown) :
    f.unknownError ∈ (ConfigureValidate env getDiags data).1 := by
  unfold ConfigureValidate
  simp only [HasError_Append_nil, h, Bool.false_eq_true, if_false]
  cases f <;> simp only [Field.explicit] at hf <;>
    repeat (first
      | exact mem_ite_add_self _ _ _ _ _ _ (by simp [hf, StringValue.IsUnknown]) rfl
      | apply mem_ite_add)

theorem Configure_of_error {Handle : Type}
    (CreateClient : api.ClientConfig → Except GoString Handle)
    (env : os.Environ) (getDiags : diag.Diagnostics) (data : JupyterHubProviderModel)
    (h : diag.HasError (ConfigureValidate env getDiags data).1 = true) :
    (Configure CreateClient env getDiags data).resp.Diagnostics
        = (ConfigureValidate env getDiags data).1 ∧
      (Configure CreateClient env getDiags data).resp.DataSourceData = none ∧
      (Configure CreateClient env getDiags data).resp.ResourceData = none ∧
      (Configure CreateClient env getDiags data).created = [] := by
  unfold Configure
  rcases hv : ConfigureValidate env getDiags data with ⟨diags, _ | cfg⟩
  · simp
  · rw [hv] at h
    simp only at h
    simp [h]

theorem Configure_of_valid {Handle : Type}
    (CreateClient : api.ClientConfig → Except GoString Handle)
    (env : os.Environ) (getDiags : diag.Diagnostics) (data : JupyterHubProviderModel)
    (cfg : api.ClientConfig)
    (h : diag.HasError (ConfigureValidate env getDiags data).1 = false)
    (hc : (ConfigureValidate env getDiags data).2 = some cfg) :
    (Configure CreateClient env getDiags data).created = [cfg] ∧
      (∀ err, CreateClient cfg = Except.error err →
        (Configure CreateClient env getDiags data).resp.Diagnostics
            = (ConfigureValidate env getDiags data).1
              ++ [⟨diag.Severity.error, str "Unable to Create Jupyterhub API Client",
                    createClientDetail err, none⟩] ∧
          (Configure CreateClient env getDiags data).resp.DataSourceData = none ∧
          (Configure CreateClient env getDiags data).resp.ResourceData = none) ∧
      (∀ client, CreateClient cfg = Except.ok client →
        (Configure CreateClient env getDiags data).resp.Diagnostics
            = (ConfigureValidate env getDiags data).1 ∧
          (Configure CreateClient env getDiags data).resp.DataSourceData = some client ∧
          (Configure CreateClient env getDiags data).resp.ResourceData = some client) := by
  unfold Configure
  rcases hv : ConfigureValidate env getDiags data with ⟨diags, _ | cfg2⟩
  · rw [hv] at hc; simp at hc
  · rw [hv] at h hc
    simp only at h hc
    cases Option.some.inj hc
    simp only [h, Bool.false_eq_true, if_false]
    cases hcc : CreateClient cfg with
    | error e =>
      have hno : (⟨diag.Severity.error, str "Unable to Create Jupyterhub API Client",
          createClientDetail e, none⟩ : diag.Diagnostic) ∉ diags :=
        not_mem_of_no_error _ _ h rfl
      simp [diag.AddError, Append_singleton, append1_of_not_mem _ _ hno]
    | ok client => simp

theorem credential_checks (base : diag.Diagnostics) (token username password : GoString)
    (hbase : diag.HasError base = false) :
    (if token = [] ∧ password = [] then
        diag.AddAttributeError
          (if token = [] ∧ username = [] then
            diag.AddAttributeError base (path.Root (str "username"))
              (str "Missing JupyterHub API Token and Username") missingUsernameDetail
           else base)
          (path.Root (str "password"))
          (str "Missing JupyterHub API Token and Password") missingPasswordDetail
      else
        (if token = [] ∧ username = [] then
          diag.AddAttributeError base (path.Root (str "username"))
            (str "Missing JupyterHub API Token and Username") missingUsernameDetail
         else base))
      = base
        ++ (if token = [] ∧ username = [] then [missingUsernameError] else [])
        ++ (if token = [] ∧ password = [] then [missingPasswordError] else []) := by
  have n1 : missingUsernameError ∉ base := not_mem_of_no_error _ _ hbase rfl
  have n2 : missingPasswordError ∉ base := not_mem_of_no_error _ _ hbase rfl
  have n3 : missingPasswordError ∉ base ++ [missingUsernameError] := by
    intro hm
    rcases List.mem_append.1 hm with hm | hm
    · exact n2 hm
    · have : missingPasswordError = missingUsernameError := by simpa using hm
      exact absurd (congrArg diag.Diagnostic.attrPath this) (by decide)
  have a1 : diag.AddAttributeError base (path.Root (str "username"))
      (str "Missing JupyterHub API Token and Username") missingUsernameDetail
      = base ++ [missingUsernameError] := append1_of_not_mem _ _ n1
  have a2 : diag.AddAttributeError base (path.Root (str "password"))
      (str "Missing JupyterHub API Token and Password") missingPasswordDetail
      = base ++ [missingPasswordError] := append1_of_not_mem _ _ n2
  have a3 : diag.AddAttributeError (base ++ [missingUsernameError]) (path.Root (str "password"))
      (str "Missing JupyterHub API Token and Password") missingPasswordDetail
      = base ++ [missingUsernameError] ++ [missingPasswordError] := append1_of_not_mem _ _ n3
  by_cases h1 : token = [] ∧ username = [] <;> by_cases h2 : token = [] ∧ password = []
  · rw [if_pos h2, if_pos h1, if_pos h1, if_pos h2, a1, a3]
  · rw [if_neg h2, if_pos h1, if_pos h1, if_neg h2, a1]; simp
  · rw [if_pos h2, if_neg h1, if_neg h1, if_pos h2, a2]; simp
  · rw [if_neg h2, if_neg h1, if_neg h1, if_neg h2]; simp

theorem ConfigureValidate_known (env : os.Environ) (getDiags : diag.Diagnostics)
    (data : JupyterHubProviderModel) (cfg : api.ClientConfig)
    (h : diag.HasError getDiags = false)
    (hk : ∀ f : Field, f.explicit data ≠ StringValue.unknown)
    (hc : (ConfigureValidate env getDiags data).2 = some cfg) :
    (ConfigureValidate env getDiags data).1
      = diag.Append [] getDiags
        ++ (if cfg.Token = [] ∧ cfg.Username = [] then [missingUsernameError] else [])
        ++ (if cfg.Token = [] ∧ cfg.Password = [] then [missingPasswordError] else []) := by
  rw [ConfigureValidate_resolved env getDiags data h] at hc
  cases Option.some.inj hc
  have u1 : data.Protocol.IsUnknown = false := by
    have := hk Field.protocol
    cases hp : data.Protocol <;> simp_all [Field.explicit, StringValue.IsUnknown]
  have u2 : data.Host.IsUnknown = false := by
    have := hk Field.host
    cases hp : data.Host <;> simp_all [Field.explicit, StringValue.IsUnknown]
  have u3 : data.Prefix.IsUnknown = false := by
    have := hk Field.pathPrefix
    cases hp : data.Prefix <;> simp_all [Field.explicit, StringValue.IsUnknown]
  have u4 : data.Token.IsUnknown = false := by
    have := hk Field.token
    cases hp : data.Token <;> simp_all [Field.explicit, StringValue.IsUnknown]
  have u5 : data.Username.IsUnknown = false := by
    have := hk Field.username
    cases hp : data.Username <;> simp_all [Field.explicit, StringValue.IsUnknown]
  have u6 : data.Password.IsUnknown = false := by
    have := hk Field.password
    cases hp : data.Password <;> simp_all [Field.explicit, StringValue.IsUnknown]
  have hbase : diag.HasError (diag.Append [] getDiags) = false := by
    rw [HasError_Append_nil]; exact h
  unfold ConfigureValidate
  simp only [HasError_Append_nil, h, Bool.false_eq_true, if_false, u1, u2, u3, u4, u5, u6]
  exact credential_checks _ _ _ _ hbase

/-! ## Resolution of the six values -/

set_option maxRecDepth 100000 in
/-- C1 (the code departs from it): with none of the six attributes set and the six
documented variables `JUPYTERHUB_PROTOCOL`, `JUPYTERHUB_HOST`,
`JUPYTERHUB_PREFIX`, `JUPYTERHUB_TOKEN`, `JUPYTERHUB_USERNAME`,
`JUPYTERHUB_PASSWORD` all set to non-empty values, `Configure` resolves none of
those values: host is `localhost:8000` and not the value of `JUPYTERHUB_HOST`,
protocol and prefix are the built-in defaults, the three credentials are
empty, and the run ends with the two missing-credential errors and without a
call to `api.CreateClient`; for each of the six fields the resolved value
differs from the value of its documented variable. -/
theorem Configure_documented_variables_not_read :
    nullConfig.Host = StringValue.null ∧
    documentedEnv (str "JUPYTERHUB_HOST") = some (str "hub.example.org") ∧
    (Configure acceptingCreateClient documentedEnv [] nullConfig).locals
      = some defaultsOnly ∧
    defaultsOnly.Host = str "localhost:8000" ∧
    (Configure acceptingCreateClient documentedEnv [] nullConfig).resp.Diagnostics
      = [missingUsernameError, missingPasswordError] ∧
    (Configure acceptingCreateClient documentedEnv [] nullConfig).created = [] ∧
    (∀ f : Field, ∃ v,
      f.explicit nullConfig = StringValue.null ∧
      documentedEnv f.documentedVar = some v ∧ v ≠ [] ∧
      f.resolved defaultsOnly ≠ v) := by
  refine ⟨by decide, by decide, by decide, by decide, by decide, by decide, ?_⟩
  intro f
  cases f
  · exact ⟨str "https", rfl, by decide, by decide, by decide⟩
  · exact ⟨str "hub.example.org", rfl, by decide, by decide, by decide⟩
  · exact ⟨str "/hub", rfl, by decide, by decide, by decide⟩
  · exact ⟨str "secret", rfl, by decide, by decide, by decide⟩
  · exact ⟨str "admin", rfl, by decide, by decide, by decide⟩
  · exact ⟨str "hunter2", rfl, by decide, by decide, by decide⟩

/-- C3: whatever the environment holds, every one of the six fields that the
configuration sets to a known value `v` has `v` as its resolved value when
`Configure` returns, and `v` is what any call to `api.CreateClient` receives
for that field. -/
theorem Configure_explicit_value_wins {Handle : Type}
    (CreateClient : api.ClientConfig → Except GoString Handle)
    (env : os.Environ) (getDiags : diag.Diagnostics) (data : JupyterHubProviderModel)
    (h : diag.HasError getDiags = false) :
    ∃ cfg, (Configure CreateClient env getDiags data).locals = some cfg ∧
      (∀ (f : Field) (v : GoString), f.explicit data = StringValue.known v → f.resolved cfg = v) ∧
      (∀ c ∈ (Configure CreateClient env getDiags data).created, c = cfg) := by
  obtain ⟨cfg, hl, hk, _, _, _⟩ := Configure_resolved CreateClient env getDiags data h
  refine ⟨cfg, hl, hk, ?_⟩
  intro c hc
  have := Configure_created_locals CreateClient env getDiags data c hc
  rw [hl] at this
  exact (Option.some.inj this).symm

/-- Witness for C3: explicit host `h` and protocol `p` against an environment that
overrides both. -/
theorem Configure_explicit_value_wins_witness :
    diag.HasError [] = false ∧
    ∃ cfg, (Configure acceptingCreateClient overridingEnv [] hostProtocolConfig).locals = some cfg ∧
      cfg.Host = str "h" ∧ cfg.Protocol = str "p" :=
  ⟨by decide,
    (Configure_explicit_value_wins acceptingCreateClient overridingEnv [] hostProtocolConfig
      (by decide)).elim
      (fun cfg hc => ⟨cfg, hc.1, hc.2.1 Field.host (str "h") rfl, hc.2.1 Field.protocol (str "p") rfl⟩)⟩

/-- C4: for each of protocol, host and prefix, when the field is not set in the
configuration and the variable `Configure` reads for it is unset or empty,
the resolved value is the built-in default (`http`, `localhost:8000`, `/`); in
particular all three defaults are resolved when nothing is set and the
environment is empty. -/
theorem Configure_builtin_defaults {Handle : Type}
    (CreateClient : api.ClientConfig → Except GoString Handle)
    (env : os.Environ) (getDiags : diag.Diagnostics) (data : JupyterHubProviderModel)
    (h : diag.HasError getDiags = false) :
    ∃ cfg, (Configure CreateClient env getDiags data).locals = some cfg ∧
      (data.Protocol = StringValue.null →
        (env (str "HASHICUPS_PROTOCOL") = none ∨ env (str "HASHICUPS_PROTOCOL") = some []) →
        cfg.Protocol = str "http") ∧
      (data.Host = StringValue.null →
        (env (str "HASHICUPS_HOST") = none ∨ env (str "HASHICUPS_HOST") = some []) →
        cfg.Host = str "localhost:8000") ∧
      (data.Prefix = StringValue.null →
        (env (str "HASHICUPS_PREFIX") = none ∨ env (str "HASHICUPS_PREFIX") = some []) →
        cfg.Prefix = str "/") ∧
      (data = nullConfig → (∀ key, env key = none) →
        cfg.Protocol = str "http" ∧ cfg.Host = str "localhost:8000" ∧ cfg.Prefix = str "/") := by
  obtain ⟨cfg, hl, _, _, _, hd⟩ := Configure_resolved CreateClient env getDiags data h
  have unset : ∀ key, (env key = none ∨ env key = some []) → os.Getenv env key = [] := by
    intro key hk
    rcases hk with hk | hk <;> simp [os.Getenv, hk]
  refine ⟨cfg, hl, ?_, ?_, ?_, ?_⟩
  · intro hn he
    exact hd Field.protocol hn (unset _ he)
  · intro hn he
    exact hd Field.host hn (unset _ he)
  · intro hn he
    exact hd Field.pathPrefix hn (unset _ he)
  · intro hn he
    subst hn
    exact ⟨hd Field.protocol rfl (unset _ (Or.inl (he _))),
      hd Field.host rfl (unset _ (Or.inl (he _))),
      hd Field.pathPrefix rfl (unset _ (Or.inl (he _)))⟩

/-- Witness for C4: nothing set explicitly, empty environment. -/
theorem Configure_builtin_defaults_witness :
    diag.HasError [] = false ∧
    ∃ cfg, (Configure acceptingCreateClient emptyEnv [] nullConfig).locals = some cfg ∧
      cfg.Protocol = str "http" ∧ cfg.Host = str "localhost:8000" ∧ cfg.Prefix = str "/" :=
  ⟨by decide,
    (Configure_builtin_defaults acceptingCreateClient emptyEnv [] nullConfig (by decide)).elim
      (fun cfg hc => ⟨cfg, hc.1, hc.2.2.2.2 rfl (fun _ => rfl)⟩)⟩

/-! ## Validation and client construction -/

/-- C5: when the explicit value of a field `f` is unknown, `Configure` ends with
an error among its diagnostics, one of them the error scoped to the attribute
`f`; no call to `api.CreateClient` is made and no handle is stored; and the
value resolved for `f` is the empty string in every environment, which is
none of the built-in defaults. -/
theorem Configure_unknown_field {Handle : Type}
    (CreateClient : api.ClientConfig → Except GoString Handle)
    (env : os.Environ) (getDiags : diag.Diagnostics) (data : JupyterHubProviderModel) (f : Field)
    (h : diag.HasError getDiags = false) (hf : f.explicit data = StringValue.unknown) :
    diag.HasError (Configure CreateClient env getDiags data).resp.Diagnostics = true ∧
    f.unknownError ∈ (Configure CreateClient env getDiags data).resp.Diagnostics ∧
    f.unknownError.severity = diag.Severity.error ∧
    f.unknownError.attrPath = some (path.Root f.attrName) ∧
    (Configure CreateClient env getDiags data).created = [] ∧
    (Configure CreateClient env getDiags data).resp.DataSourceData = none ∧
    (Configure CreateClient env getDiags data).resp.ResourceData = none ∧
    (∃ cfg, (Configure CreateClient env getDiags data).locals = some cfg ∧ f.resolved cfg = []) ∧
    (∀ env2 : os.Environ, ∃ cfg2,
      (Configure CreateClient env2 getDiags data).locals = some cfg2 ∧ f.resolved cfg2 = []) ∧
    (∀ d, f.builtin = some d → d ≠ []) := by
  have hmem := ConfigureValidate_mem_unknown env getDiags data f h hf
  have hsev : f.unknownError.severity = diag.Severity.error := by cases f <;> rfl
  have herr : diag.HasError (ConfigureValidate env getDiags data).1 = true := by
    unfold diag.HasError
    rw [List.any_eq_true]
    exact ⟨f.unknownError, hmem, by simpa using hsev⟩
  obtain ⟨hd, hds, hrs, hcr⟩ := Configure_of_error CreateClient env getDiags data herr
  have hres : ∀ env2 : os.Environ, ∃ cfg2,
      (Configure CreateClient env2 getDiags data).locals = some cfg2 ∧ f.resolved cfg2 = [] := by
    intro env2
    obtain ⟨cfg2, hl, _, hu, _, _⟩ := Configure_resolved CreateClient env2 getDiags data h
    exact ⟨cfg2, hl, hu f hf⟩
  refine ⟨by rw [hd]; exact herr, by rw [hd]; exact hmem, hsev, ?_, hcr, hds, hrs, hres env,
    hres, ?_⟩
  · cases f <;> rfl
  · intro d hd2
    cases f <;> simp only [Field.builtin, Option.some.injEq] at hd2 <;>
      first
        | exact Option.noConfusion hd2
        | (subst hd2; decide)

set_option maxRecDepth 100000 in
/-- Witness for C5: an unknown token, with `HASHICUPS_HOST` and
`HASHICUPS_PROTOCOL` set in the environment. -/
theorem Configure_unknown_field_witness :
    diag.HasError [] = false ∧
    Field.explicit unknownTokenConfig Field.token = StringValue.unknown ∧
    Field.token.unknownError
      ∈ (Configure acceptingCreateClient overridingEnv [] unknownTokenConfig).resp.Diagnostics ∧
    (Configure acceptingCreateClient overridingEnv [] unknownTokenConfig).created = [] ∧
    (Configure acceptingCreateClient overridingEnv [] unknownTokenConfig).resp.DataSourceData
      = none :=
  ⟨by decide, rfl,
    (Configure_unknown_field acceptingCreateClient overridingEnv [] unknownTokenConfig Field.token
      (by decide) rfl).2.1,
    (Configure_unknown_field acceptingCreateClient overridingEnv [] unknownTokenConfig Field.token
      (by decide) rfl).2.2.2.2.1,
    (Configure_unknown_field acceptingCreateClient overridingEnv [] unknownTokenConfig Field.token
      (by decide) rfl).2.2.2.2.2.1⟩

/-- C6: with no unknown field, the diagnostics at the end of validation are those
of the decoding followed by the error on attribute `username` exactly when the
resolved token and username are both empty, and by the error on attribute
`password` exactly when the resolved token and password are both empty; so
three empty values give both errors and a non-empty token gives none; and
`api.CreateClient` is called exactly when the token is non-empty or username
and password are both non-empty. -/
theorem Configure_credential_checks {Handle : Type}
    (CreateClient : api.ClientConfig → Except GoString Handle)
    (env : os.Environ) (getDiags : diag.Diagnostics) (data : JupyterHubProviderModel)
    (h : diag.HasError getDiags = false)
    (hk : ∀ f : Field, f.explicit data ≠ StringValue.unknown) :
    ∃ cfg, (Configure CreateClient env getDiags data).locals = some cfg ∧
      (ConfigureValidate env getDiags data).1
        = diag.Append [] getDiags
          ++ (if cfg.Token = [] ∧ cfg.Username = [] then [missingUsernameError] else [])
          ++ (if cfg.Token = [] ∧ cfg.Password = [] then [missingPasswordError] else []) ∧
      missingUsernameError.severity = diag.Severity.error ∧
      missingUsernameError.attrPath = some (path.Root (str "username")) ∧
      missingPasswordError.severity = diag.Severity.error ∧
      missingPasswordError.attrPath = some (path.Root (str "password")) ∧
      (cfg.Token = [] → cfg.Username = [] → cfg.Password = [] →
        (ConfigureValidate env getDiags data).1
          = diag.Append [] getDiags ++ [missingUsernameError, missingPasswordError]) ∧
      (cfg.Token ≠ [] → (ConfigureValidate env getDiags data).1 = diag.Append [] getDiags) ∧
      ((Configure CreateClient env getDiags data).created = [cfg]
        ↔ (cfg.Token ≠ [] ∨ (cfg.Username ≠ [] ∧ cfg.Password ≠ []))) ∧
      (¬ (cfg.Token ≠ [] ∨ (cfg.Username ≠ [] ∧ cfg.Password ≠ [])) →
        (Configure CreateClient env getDiags data).created = [] ∧
        (Configure CreateClient env getDiags data).resp.Diagnostics
          = (ConfigureValidate env getDiags data).1 ∧
        (Configure CreateClient env getDiags data).resp.DataSourceData = none ∧
        (Configure CreateClient env getDiags data).resp.ResourceData = none) := by
  obtain ⟨cfg, hl, _⟩ := Configure_resolved CreateClient env getDiags data h
  have hc : (ConfigureValidate env getDiags data).2 = some cfg := by
    rw [← Configure_locals CreateClient env getDiags data]; exact hl
  have hv := ConfigureValidate_known env getDiags data cfg h hk hc
  have hbase : diag.HasError (diag.Append [] getDiags) = false := by
    rw [HasError_Append_nil]; exact h
  have hE : diag.HasError (ConfigureValidate env getDiags data).1
      = (decide (cfg.Token = [] ∧ cfg.Username = []) || decide (cfg.Token = [] ∧ cfg.Password = [])) := by
    rw [hv]
    unfold diag.HasError at hbase ⊢
    rw [List.any_append, List.any_append, hbase]
    by_cases h1 : cfg.Token = [] ∧ cfg.Username = [] <;>
      by_cases h2 : cfg.Token = [] ∧ cfg.Password = [] <;>
      simp [h1, h2, missingUsernameError, missingPasswordError]
  have hstop : ¬ (cfg.Token ≠ [] ∨ (cfg.Username ≠ [] ∧ cfg.Password ≠ [])) →
      diag.HasError (ConfigureValidate env getDiags data).1 = true := by
    intro hn
    rw [hE]
    by_cases ht : cfg.Token = [] <;> by_cases hu : cfg.Username = [] <;>
      by_cases hp : cfg.Password = [] <;> simp_all
  have hgo : (cfg.Token ≠ [] ∨ (cfg.Username ≠ [] ∧ cfg.Password ≠ [])) →
      diag.HasError (ConfigureValidate env getDiags data).1 = false := by
    intro hn
    rw [hE]
    by_cases ht : cfg.Token = [] <;> by_cases hu : cfg.Username = [] <;>
      by_cases hp : cfg.Password = [] <;> simp_all
  refine ⟨cfg, hl, hv, rfl, rfl, rfl, rfl, ?_, ?_, ?_, ?_⟩
  · intro ht hu hp
    rw [hv]; simp [ht, hu, hp]
  · intro ht
    rw [hv]; simp [ht]
  · constructor
    · intro hcr
      by_contra hn
      have := (Configure_of_error CreateClient env getDiags data (hstop hn)).2.2.2
      rw [hcr] at this
      exact absurd this (by simp)
    · intro hp
      exact (Configure_of_valid CreateClient env getDiags data cfg (hgo hp) hc).1
  · intro hn
    obtain ⟨hd, hds, hrs, hcr⟩ := Configure_of_error CreateClient env getDiags data (hstop hn)
    exact ⟨hcr, hd, hds, hrs⟩

set_option maxRecDepth 100000 in
/-- Witness for C6: nothing set and an empty environment, so that token, username
and password are all empty. -/
theorem Configure_credential_checks_witness :
    diag.HasError [] = false ∧
    (∀ f : Field, f.explicit nullConfig ≠ StringValue.unknown) ∧
    ∃ cfg, (Configure acceptingCreateClient emptyEnv [] nullConfig).locals = some cfg ∧
      (ConfigureValidate emptyEnv [] nullConfig).1
        = diag.Append [] []
          ++ (if cfg.Token = [] ∧ cfg.Username = [] then [missingUsernameError] else [])
          ++ (if cfg.Token = [] ∧ cfg.Password = [] then [missingPasswordError] else []) ∧
      ((Configure acceptingCreateClient emptyEnv [] nullConfig).created = [cfg]
        ↔ (cfg.Token ≠ [] ∨ (cfg.Username ≠ [] ∧ cfg.Password ≠ []))) :=
  ⟨by decide, fun f => by cases f <;> decide,
    (Configure_credential_checks acceptingCreateClient emptyEnv [] nullConfig (by decide)
      (fun f => by cases f <;> decide)).elim
      (fun cfg hc => ⟨cfg, hc.1, hc.2.1, hc.2.2.2.2.2.2.2.2.1⟩)⟩

/-- C8: when `api.CreateClient` returns an error with message `e`, `Configure`
adds to the diagnostics of the validation exactly one error, whose detail is a
fixed text followed by `e`, and stores no handle; when `GetUser` returns an
error with message `err`, `Read` adds to the diagnostics of the decoding
exactly one error, whose detail is `err`, and does not call `resp.State.Set`. -/
theorem external_failure_single_diagnostic {Handle : Type}
    (CreateClient : api.ClientConfig → Except GoString Handle)
    (env : os.Environ) (getDiags : diag.Diagnostics) (data : JupyterHubProviderModel)
    (cfg : api.ClientConfig) (e : GoString)
    (escape : GoString → GoString) (GetUser : GoString → Except GoString api.User)
    (readDiags : diag.Diagnostics) (config : userDataSourceModel) (setDiags : diag.Diagnostics)
    (key err : GoString)
    (hv : diag.HasError (ConfigureValidate env getDiags data).1 = false)
    (hc : (ConfigureValidate env getDiags data).2 = some cfg)
    (he : CreateClient cfg = Except.error e)
    (hr : diag.HasError readDiags = false)
    (hkey : goSlice (config.Name.String escape)
      1 (((config.Name.String escape).length : Int) - 1) = some key)
    (herr : GetUser key = Except.error err) :
    ((Configure CreateClient env getDiags data).created = [cfg] ∧
      (Configure CreateClient env getDiags data).resp.Diagnostics
        = (ConfigureValidate env getDiags data).1
          ++ [⟨diag.Severity.error, str "Unable to Create Jupyterhub API Client",
                createClientDetail e, none⟩] ∧
      createClientDetail e
        = str "An unexpected error occurred when creating the JuypterHub API client. "
          ++ str "If the error is not clear, please contact the provider developers.\n\n"
          ++ str "HashiCups Client Error: " ++ e ∧
      (Configure CreateClient env getDiags data).resp.DataSourceData = none ∧
      (Configure CreateClient env getDiags data).resp.ResourceData = none) ∧
    Read escape GetUser readDiags config setDiags = some
      { Diagnostics := diag.Append [] readDiags
          ++ [⟨diag.Severity.error, str "Unable to Read JupyterHub User", err, none⟩],
        State := none,
        queried := [key] } := by
  obtain ⟨hcr, hE, _⟩ := Configure_of_valid CreateClient env getDiags data cfg hv hc
  obtain ⟨hd, hds, hrs⟩ := hE e he
  exact ⟨⟨hcr, hd, rfl, hds, hrs⟩,
    Read_error escape GetUser readDiags config setDiags key err hr hkey herr⟩

set_option maxRecDepth 100000 in
/-- Witness for C8: a token-only configuration whose client construction is
rejected, and a lookup of the name `bob`, which the client does not know. -/
theorem external_failure_single_diagnostic_witness :
    diag.HasError (ConfigureValidate emptyEnv [] tokenConfig).1 = false ∧
    rejectingCreateClient
        { Protocol := str "http", Host := str "localhost:8000", Prefix := str "/",
          Token := str "t", Username := [], Password := [] }
      = Except.error (str "malformed host") ∧
    sampleGetUser (str "bob") = Except.error (str "404 Not Found") ∧
    (Configure rejectingCreateClient emptyEnv [] tokenConfig).resp.Diagnostics
      = (ConfigureValidate emptyEnv [] tokenConfig).1
        ++ [⟨diag.Severity.error, str "Unable to Create Jupyterhub API Client",
              createClientDetail (str "malformed host"), none⟩] ∧
    Read plainEscape sampleGetUser [] bobConfig [] = some
      { Diagnostics := diag.Append [] []
          ++ [⟨diag.Severity.error, str "Unable to Read JupyterHub User",
                str "404 Not Found", none⟩],
        State := none,
        queried := [str "bob"] } :=
  ⟨by decide, rfl, rfl,
    (external_failure_single_diagnostic rejectingCreateClient emptyEnv [] tokenConfig
      { Protocol := str "http", Host := str "localhost:8000", Prefix := str "/",
        Token := str "t", Username := [], Password := [] }
      (str "malformed host") plainEscape sampleGetUser [] bobConfig [] (str "bob")
      (str "404 Not Found") (by decide) (by decide) rfl (by decide) (by decide) rfl).1.2.1,
    (external_failure_single_diagnostic rejectingCreateClient emptyEnv [] tokenConfig
      { Protocol := str "http", Host := str "localhost:8000", Prefix := str "/",
        Token := str "t", Username := [], Password := [] }
      (str "malformed host") plainEscape sampleGetUser [] bobConfig [] (str "bob")
      (str "404 Not Found") (by decide) (by decide) rfl (by decide) (by decide) rfl).2⟩

/-! ## The user data source -/

set_option maxRecDepth 100000 in
/-- C2 (the code departs from it): for the record admin=true, roles=[a, b],
groups=[g1] returned by `GetUser`, the state `Read` hands to `resp.State.Set`
has admin=true, roles=[g1] and groups=[]; its roles are neither [a, b] (the
corrected mapping, which also needs groups=[g1]) nor [a, b, g1] (the documented
defect). -/
theorem Read_sample_user_state :
    sampleGetUser (str "alice") = Except.ok sampleUser ∧
    Read plainEscape sampleGetUser [] aliceConfig [] = some
      { Diagnostics := [],
        State := some
          { Name := StringValue.known (str "alice"),
            Admin := BoolValue.known true,
            Roles := [StringValue.known (str "g1")],
            Groups := [] },
        queried := [str "alice"] } ∧
    [StringValue.known (str "g1")] ≠ sampleUser.Roles.map StringValue.known ∧
    [StringValue.known (str "g1")]
      ≠ (sampleUser.Roles ++ sampleUser.Groups).map StringValue.known ∧
    ([] : List StringValue) ≠ sampleUser.Groups.map StringValue.known :=
  ⟨rfl, by decide, by decide, by decide, by decide⟩

/-- C9: when `GetUser` returns the record `user` for the stripped key, `Read` hands
to `resp.State.Set` a state whose admin is `user.Admin`, whose groups are the
empty list, and whose roles are `user.Roles` in order when `user.Groups` is
empty and the single last element of `user.Groups` otherwise. -/
theorem Read_state_after_loops (escape : GoString → GoString) (GetUser : GoString → Except GoString api.User)
    (getDiags : diag.Diagnostics) (config : userDataSourceModel) (setDiags : diag.Diagnostics)
    (key : GoString) (user : api.User)
    (h : diag.HasError getDiags = false)
    (hkey : goSlice (config.Name.String escape)
      1 (((config.Name.String escape).length : Int) - 1) = some key)
    (huser : GetUser key = Except.ok user) :
    Read escape GetUser getDiags config setDiags = some
      { Diagnostics := diag.Append (diag.Append [] getDiags) setDiags,
        State := some
          { Name := config.Name,
            Admin := BoolValue.known user.Admin,
            Roles :=
              match user.Groups.getLast? with
              | none => user.Roles.map StringValue.known
              | some g => [StringValue.known g],
            Groups := [] },
        queried := [key] } := by
  unfold Read
  simp only [HasError_Append_nil, h, hkey, huser, rolesLoop_eq, groupsLoop_eq]
  simp

/-- Witness for C9: the record admin=true, roles=[a, b], groups=[g1] looked up
under the name `alice`. -/
theorem Read_state_after_loops_witness :
    diag.HasError [] = false ∧
    goSlice (aliceConfig.Name.String plainEscape)
      1 (((aliceConfig.Name.String plainEscape).length : Int) - 1) = some (str "alice") ∧
    sampleGetUser (str "alice") = Except.ok sampleUser ∧
    Read plainEscape sampleGetUser [] aliceConfig [] = some
      { Diagnostics := diag.Append (diag.Append [] []) [],
        State := some
          { Name := aliceConfig.Name,
            Admin := BoolValue.known sampleUser.Admin,
            Roles :=
              match sampleUser.Groups.getLast? with
              | none => sampleUser.Roles.map StringValue.known
              | some g => [StringValue.known g],
            Groups := [] },
        queried := [str "alice"] } :=
  ⟨by decide, by decide, rfl,
    Read_state_after_loops plainEscape sampleGetUser [] aliceConfig [] (str "alice") sampleUser
      (by decide) (by decide) rfl⟩

/-- C7: when the name is rendered as `s` between one leading and one trailing
byte, the slice expression of `Read` yields exactly `s`, and `Read` makes
exactly one call to `GetUser`, with `s` as its key. -/
theorem Read_queries_stripped_name (escape : GoString → GoString)
    (GetUser : GoString → Except GoString api.User)
    (getDiags : diag.Diagnostics) (config : userDataSourceModel) (setDiags : diag.Diagnostics)
    (q1 q2 : UInt8) (s : GoString)
    (h : diag.HasError getDiags = false)
    (hname : config.Name.String escape = q1 :: (s ++ [q2])) :
    goSlice (config.Name.String escape)
      1 (((config.Name.String escape).length : Int) - 1) = some s ∧
    ∃ run, Read escape GetUser getDiags config setDiags = some run ∧ run.queried = [s] := by
  have hkey : goSlice (config.Name.String escape)
      1 (((config.Name.String escape).length : Int) - 1) = some s := by
    rw [hname]; exact goSlice_strip_wrapped q1 q2 s
  refine ⟨hkey, ?_⟩
  unfold Read
  simp only [HasError_Append_nil, h, hkey]
  cases GetUser s <;> simp

/-- Witness for C7: the name `alice`, rendered with its two quote characters. -/
theorem Read_queries_stripped_name_witness :
    diag.HasError [] = false ∧
    aliceConfig.Name.String plainEscape = 34 :: (str "alice" ++ [34]) ∧
    goSlice (aliceConfig.Name.String plainEscape)
      1 (((aliceConfig.Name.String plainEscape).length : Int) - 1) = some (str "alice") ∧
    ∃ run, Read plainEscape sampleGetUser [] aliceConfig [] = some run ∧
      run.queried = [str "alice"] :=
  ⟨by decide, rfl,
    Read_queries_stripped_name plainEscape sampleGetUser [] aliceConfig [] 34 34 (str "alice")
      (by decide) rfl⟩

/-- C10: the slice expression `username[1:len(username)-1]` is in range exactly
when the string has at least two bytes; every rendering of the name (null
marker, unknown marker, quoted known string) has at least two bytes, so `Read`
never panics; and when the known empty string is rendered as two quote
characters, the key `Read` looks up is the empty string. -/
theorem Read_slice_in_range (escape : GoString → GoString)
    (GetUser : GoString → Except GoString api.User)
    (getDiags : diag.Diagnostics) (config : userDataSourceModel) (setDiags : diag.Diagnostics) :
    (∀ s : GoString, (goSlice s 1 ((s.length : Int) - 1)).isSome = true ↔ 2 ≤ s.length) ∧
    (∀ name : StringValue, 2 ≤ (name.String escape).length) ∧
    (Read escape GetUser getDiags config setDiags).isSome = true ∧
    (escape [] = [] → (StringValue.known []).String escape = [34, 34]) ∧
    (escape [] = [] → config.Name = StringValue.known [] → diag.HasError getDiags = false →
      ∃ run, Read escape GetUser getDiags config setDiags = some run ∧ run.queried = [[]]) := by
  refine ⟨goSlice_strip_isSome, String_length_ge_two escape, ?_, ?_, ?_⟩
  · have hsome := (goSlice_strip_isSome (config.Name.String escape)).2
      (String_length_ge_two escape config.Name)
    obtain ⟨key, hkey⟩ := Option.isSome_iff_exists.1 hsome
    unfold Read
    simp only [hkey]
    split
    · rfl
    · cases GetUser key <;> rfl
  · intro he
    simp [StringValue.String, he]
  · intro he hn h
    have hkey : goSlice (config.Name.String escape)
        1 (((config.Name.String escape).length : Int) - 1) = some [] := by
      rw [hn]
      simp only [StringValue.String, he]
      exact goSlice_strip_wrapped 34 34 []
    unfold Read
    simp only [HasError_Append_nil, h, hkey]
    cases GetUser [] <;> simp

/-- Witness for C10: the known empty name. -/
theorem Read_slice_in_range_witness :
    (Read plainEscape sampleGetUser [] emptyNameConfig []).isSome = true ∧
    (StringValue.known []).String plainEscape = [34, 34] ∧
    ∃ run, Read plainEscape sampleGetUser [] emptyNameConfig [] = some run ∧
      run.queried = [[]] :=
  ⟨(Read_slice_in_range plainEscape sampleGetUser [] emptyNameConfig []).2.2.1,
    (Read_slice_in_range plainEscape sampleGetUser [] emptyNameConfig []).2.2.2.1 rfl,
    (Read_slice_in_range plainEscape sampleGetUser [] emptyNameConfig []).2.2.2.2 rfl rfl
      (by decide)⟩

end JupyterHub
